import Mathlib

/-!
Shallow embedding of the alert/aggregation logic of the Delhi air-quality
dashboard (src/app.py): the AQI classifier `get_aqi_category`, the PM2.5
converter `pm25_to_aqi`, the haversine helper `calculate_distance`, the
station selection `get_nearby_stations`, the message builder
`create_alert_message`, the SMS sender `send_sms_alert` and the alert tab
flow, together with theorems settling the specification claims about them.

Python floats are modelled as exact rationals (for AQI values and
concentrations) or reals (for coordinates and distances); the float NaN and
its comparison semantics are modelled explicitly where the code can meet it.
-/

namespace AirQuality

/-- The AQI severity categories of the data model. The source returns the
category name as a display string; the enumeration models those strings.
`unknown` appears in the data model of the specification but, as shown below,
is never produced by `get_aqi_category`. -/
inductive AqiCategory where
  | good
  | moderate
  | unhealthySensitive
  | unhealthy
  | veryUnhealthy
  | hazardous
  | unknown
deriving DecidableEq, Repr

/-- A Python float argument to the classifier: either an exact numeric value
or the IEEE NaN, whose order comparisons all evaluate to false. -/
inductive AqiInput where
  | num (q : ℚ)
  | nan
deriving DecidableEq, Repr

/-- Python `x <= b` on a float `x`: false whenever `x` is NaN. -/
def AqiInput.le (x : AqiInput) (b : ℚ) : Bool :=
  match x with
  | .num q => decide (q ≤ b)
  | .nan => false

/-- The tuple returned by `get_aqi_category`: category, RGB color, emoji and
health advice. -/
structure CategoryInfo where
  category : AqiCategory
  color : ℤ × ℤ × ℤ
  emoji : String
  advice : String
deriving DecidableEq, Repr

/-- Embeds `get_aqi_category` (src/app.py lines 305-318): categorizes an AQI
value and provides color, emoji, and health advice. The chain of `aqi <= c`
comparisons is transliterated directly; a NaN input makes every comparison
false and falls through to the final `else`. -/
def get_aqi_category (aqi : AqiInput) : CategoryInfo :=
  if aqi.le 50 then
    ⟨.good, (0, 158, 96), "✅", "Enjoy outdoor activities."⟩
  else if aqi.le 100 then
    ⟨.moderate, (255, 214, 0), "🟡", "Unusually sensitive people should consider reducing prolonged or heavy exertion."⟩
  else if aqi.le 150 then
    ⟨.unhealthySensitive, (249, 115, 22), "🟠", "Sensitive groups should reduce prolonged or heavy exertion."⟩
  else if aqi.le 200 then
    ⟨.unhealthy, (220, 38, 38), "🔴", "Everyone may begin to experience health effects."⟩
  else if aqi.le 300 then
    ⟨.veryUnhealthy, (147, 51, 234), "🟣", "Health alert: everyone may experience more serious health effects."⟩
  else
    ⟨.hazardous, (126, 34, 206), "☠️", "Health warnings of emergency conditions. The entire population is more likely to be affected."⟩

/-- Python 3 `round` to the nearest integer with ties to even (banker's
rounding), on an exact rational value. -/
def pyRound (q : ℚ) : ℤ :=
  if q - ⌊q⌋ < 1/2 then ⌊q⌋
  else if 1/2 < q - ⌊q⌋ then ⌊q⌋ + 1
  else if ⌊q⌋ % 2 = 0 then ⌊q⌋ else ⌊q⌋ + 1

/-- One row `(Clow, Chigh, Ilow, Ihigh)` of the US EPA breakpoint table used
by `pm25_to_aqi`. -/
structure Breakpoint where
  cLow : ℚ
  cHigh : ℚ
  iLow : ℤ
  iHigh : ℤ
deriving DecidableEq, Repr

/-- The breakpoint table of `pm25_to_aqi` (src/app.py lines 925-933),
verbatim. Note the gaps between consecutive segments (12.0 to 12.1,
35.4 to 35.5, and so on). -/
def breakpoints : List Breakpoint :=
  [⟨0, 12, 0, 50⟩,
   ⟨12.1, 35.4, 51, 100⟩,
   ⟨35.5, 55.4, 101, 150⟩,
   ⟨55.5, 150.4, 151, 200⟩,
   ⟨150.5, 250.4, 201, 300⟩,
   ⟨250.5, 350.4, 301, 400⟩,
   ⟨350.5, 500.4, 401, 500⟩]

/-- The piecewise-linear interpolation formula of one breakpoint segment:
`((Ihigh - Ilow) / (Chigh - Clow)) * (c - Clow) + Ilow`. -/
def segFormula (b : Breakpoint) (c : ℚ) : ℚ :=
  ((b.iHigh - b.iLow : ℚ) / (b.cHigh - b.cLow)) * (c - b.cLow) + (b.iLow : ℚ)

/-- Numeric path of `pm25_to_aqi` (src/app.py lines 915-940): scan the
breakpoint table for the first segment whose bounds contain `c`
(`Clow <= c <= Chigh`); on a match, interpolate and round; when no segment
matches, fall through to `return 500`. -/
def pm25_to_aqi_core (c : ℚ) : ℤ :=
  match breakpoints.find? (fun b => decide (b.cLow ≤ c ∧ c ≤ b.cHigh)) with
  | some b => pyRound (segFormula b c)
  | none => 500

/-- Argument to `pm25_to_aqi`: either a value `float()` accepts, or one on
which `float()` raises (caught by the `except` branch). -/
inductive PmInput where
  | num (c : ℚ)
  | nonNumeric
deriving DecidableEq, Repr

/-- Result of `pm25_to_aqi`: an integer AQI from `round`, or the float
`np.nan` returned when the input could not be converted to a float. -/
inductive PmResult where
  | val (n : ℤ)
  | nan
deriving DecidableEq, Repr

/-- Embeds `pm25_to_aqi` (src/app.py lines 915-940) including its
non-numeric fallback. -/
def pm25_to_aqi : PmInput → PmResult
  | .num c => .val (pm25_to_aqi_core c)
  | .nonNumeric => .nan

/-- `c` lies inside one of the breakpoint segments of the table (it is not in
a gap between segments, not negative, and not above 500.4). -/
def inBreakpointTable (c : ℚ) : Prop :=
  ∃ b ∈ breakpoints, b.cLow ≤ c ∧ c ≤ b.cHigh

/-- Degrees to radians, as `math.radians`. -/
noncomputable def radiansOf (d : ℝ) : ℝ := d * Real.pi / 180

/-- `math.atan2 y x`: the angle of the point `(x, y)`, in `(-pi, pi]`, with
`atan2 0 0 = 0`. Euclidean trigonometry is modelled exactly over the reals. -/
noncomputable def atan2 (y x : ℝ) : ℝ :=
  if 0 < x then Real.arctan (y / x)
  else if x = 0 then
    if 0 < y then Real.pi / 2 else if y < 0 then -(Real.pi / 2) else 0
  else if 0 ≤ y then Real.arctan (y / x) + Real.pi
  else Real.arctan (y / x) - Real.pi

/-- Embeds `calculate_distance` (src/app.py lines 335-349): haversine
great-circle distance in kilometers between two latitude/longitude points,
with Earth radius `R = 6371`. -/
noncomputable def calculate_distance (lat1 lon1 lat2 lon2 : ℝ) : ℝ :=
  6371 * (2 * atan2
    (Real.sqrt (Real.sin ((radiansOf lat2 - radiansOf lat1) / 2) ^ 2 +
      Real.cos (radiansOf lat1) * Real.cos (radiansOf lat2) *
        Real.sin ((radiansOf lon2 - radiansOf lon1) / 2) ^ 2))
    (Real.sqrt (1 - (Real.sin ((radiansOf lat2 - radiansOf lat1) / 2) ^ 2 +
      Real.cos (radiansOf lat1) * Real.cos (radiansOf lat2) *
        Real.sin ((radiansOf lon2 - radiansOf lon1) / 2) ^ 2))))

/-- One station row of the dataframe: name, AQI reading and coordinates. -/
structure Station where
  station_name : String
  aqi : ℚ
  lat : ℝ
  lon : ℝ

/-- Embeds `get_nearby_stations` (src/app.py lines 352-360): attach a
`distance` column computed by `calculate_distance`, keep the rows with
`distance <= radius_km`, and sort ascending by distance (pandas
`sort_values` is a stable sort, modelled by `mergeSort`). The function has
no `max_stations` parameter: every station within the radius is returned. -/
noncomputable def get_nearby_stations (df : List Station) (user_lat user_lon radius_km : ℝ) :
    List (Station × ℝ) :=
  ((df.map fun s => (s, calculate_distance user_lat user_lon s.lat s.lon)).filter
    fun p => decide (p.2 ≤ radius_km)).mergeSort fun p q => decide (p.2 ≤ q.2)

/-- The data assembled by `create_alert_message` into the alert text: the
plain average AQI of the nearby stations, its category information, and the
worst (first, nearest) station row. Weather enrichment only interpolates
extra text into the message and is not modelled. -/
structure AlertData where
  location_name : String
  avg_aqi : ℚ
  category : AqiCategory
  emoji : String
  advice : String
  worst_name : String
  worst_aqi : ℚ
  worst_distance : ℝ

/-- Embeds `create_alert_message` (src/app.py lines 405-440). An empty
station frame short-circuits to the fixed string "No nearby air quality
monitoring stations found.", modelled as `none`: no AQI value is computed
for it. Otherwise `avg_aqi` is the plain mean of the `aqi` column,
`worst_station` is the first row (`iloc[0]`), and the category comes from
`get_aqi_category` applied to the average. -/
def create_alert_message (nearby_stations : List (Station × ℝ)) (location_name : String) :
    Option AlertData :=
  match nearby_stations with
  | [] => none
  | worst :: rest =>
    let rows := worst :: rest
    let avg_aqi := (rows.map fun p => p.1.aqi).sum / (rows.length : ℚ)
    let info := get_aqi_category (.num avg_aqi)
    some ⟨location_name, avg_aqi, info.category, info.emoji, info.advice,
      worst.1.station_name, worst.1.aqi, worst.2⟩

/-- Twilio account SID constant (src/app.py line 27). -/
def TWILIO_ACCOUNT_SID : String := "AC2cc57109fc63de336609901187eca69d"

/-- Twilio auth token constant (src/app.py line 28). -/
def TWILIO_AUTH_TOKEN : String := "62b791789bb490f91879e89fa2ed959d"

/-- Twilio sender number constant (src/app.py line 29). -/
def TWILIO_PHONE_NUMBER : String := "+13856005348"

/-- Python `s.startswith(pre)`: `pre` is a prefix of `s`, character by
character. -/
def pyStartsWith (s pre : String) : Bool := pre.data.isPrefixOf s.data

/-- Embeds `send_sms_alert` (src/app.py lines 363-402). The checks run in
source order: account SID, auth token, sender number, then the recipient
number; only after all four does the code build a Twilio client and send.
The network interaction (`client.messages.create` plus the `except` clauses
translating its exceptions) is abstracted as `provider`, a function from
recipient and body to the final `(success, detail)` pair. -/
def send_sms_alert (phone_number message : String)
    (provider : String → String → Bool × String) : Bool × String :=
  if TWILIO_ACCOUNT_SID = "your_twilio_account_sid" ∨
      pyStartsWith TWILIO_ACCOUNT_SID "AC" = false then
    (false, "⚠️ Twilio Account SID not configured correctly. It should start with \x27AC\x27 and be 34 characters long.")
  else if TWILIO_AUTH_TOKEN = "your_twilio_auth_token" ∨ TWILIO_AUTH_TOKEN.length < 30 then
    (false, "⚠️ Twilio Auth Token not configured correctly. It should be 32 characters long.")
  else if TWILIO_PHONE_NUMBER = "your_twilio_phone_number" ∨
      pyStartsWith TWILIO_PHONE_NUMBER "+" = false then
    (false, "⚠️ Twilio Phone Number not configured correctly. It should start with \x27+\x27 and include country code.")
  else if pyStartsWith phone_number "+" = false then
    (false, "⚠️ Recipient phone number must include country code starting with \x27+\x27")
  else provider phone_number message

/-- Outcome of the send path of `render_alert_subscription_tab`
(src/app.py lines 648-692): a missing-field error, an invalid-phone error,
the no-stations warning, or a composed alert handed to `send_sms_alert`. -/
inductive AlertTabOutcome where
  | missingFields
  | invalidPhone
  | noStationsWarning
  | sentAlert (preview : Option AlertData) (sms : Bool × String)

/-- Embeds the `send_alert_btn` branch of `render_alert_subscription_tab`
(src/app.py lines 648-692): validate the form fields, look up the nearby
stations, warn and stop when none is within the radius, otherwise compose
the alert message and send it by SMS. `fmt` models the final string
rendering of the composed alert data. -/
noncomputable def render_alert_subscription_tab (df : List Station)
    (location_name phone_number : String) (user_lat user_lon radius : ℝ)
    (fmt : Option AlertData → String)
    (provider : String → String → Bool × String) : AlertTabOutcome :=
  if location_name = "" ∨ phone_number = "" then .missingFields
  else if pyStartsWith phone_number "+" = false then .invalidPhone
  else
    match get_nearby_stations df user_lat user_lon radius with
    | [] => .noStationsWarning
    | w :: rest =>
      let preview := create_alert_message (w :: rest) location_name
      .sentAlert preview (send_sms_alert phone_number (fmt preview) provider)

lemma pyRound_floor_le (q : ℚ) : ⌊q⌋ ≤ pyRound q := by
  unfold pyRound; split_ifs <;> omega

lemma pyRound_le_floor_succ (q : ℚ) : pyRound q ≤ ⌊q⌋ + 1 := by
  unfold pyRound; split_ifs <;> omega

lemma pyRound_mono {q1 q2 : ℚ} (h : q1 ≤ q2) : pyRound q1 ≤ pyRound q2 := by
  rcases lt_or_eq_of_le (Int.floor_mono h) with hf | hf
  · calc pyRound q1 ≤ ⌊q1⌋ + 1 := pyRound_le_floor_succ q1
    _ ≤ ⌊q2⌋ := by omega
    _ ≤ pyRound q2 := pyRound_floor_le q2
  · have hcq : ((⌊q1⌋ : ℤ) : ℚ) = ((⌊q2⌋ : ℤ) : ℚ) := by rw [hf]
    unfold pyRound
    split_ifs <;> first | omega | (exfalso; linarith [hcq])

lemma pyRound_intCast (n : ℤ) : pyRound (n : ℚ) = n := by
  unfold pyRound
  rw [Int.floor_intCast]
  norm_num

lemma mem_bp_props (b : Breakpoint) (hb : b ∈ breakpoints) :
    b.cLow < b.cHigh ∧ (b.iLow : ℚ) ≤ (b.iHigh : ℚ) := by
  fin_cases hb <;> norm_num

lemma segFormula_bounds (b : Breakpoint) (hb : b ∈ breakpoints) (c : ℚ)
    (h1 : b.cLow ≤ c) (h2 : c ≤ b.cHigh) :
    (b.iLow : ℚ) ≤ segFormula b c ∧ segFormula b c ≤ (b.iHigh : ℚ) := by
  obtain ⟨hc, hi⟩ := mem_bp_props b hb
  have hs : 0 ≤ ((b.iHigh - b.iLow : ℚ) / (b.cHigh - b.cLow)) :=
    div_nonneg (by linarith) (by linarith)
  constructor
  · have := mul_nonneg hs (by linarith : (0:ℚ) ≤ c - b.cLow)
    unfold segFormula; linarith
  · have hmul : ((b.iHigh - b.iLow : ℚ) / (b.cHigh - b.cLow)) * (c - b.cLow) ≤
        ((b.iHigh - b.iLow : ℚ) / (b.cHigh - b.cLow)) * (b.cHigh - b.cLow) :=
      mul_le_mul_of_nonneg_left (by linarith) hs
    have hcan : ((b.iHigh - b.iLow : ℚ) / (b.cHigh - b.cLow)) * (b.cHigh - b.cLow) =
        (b.iHigh - b.iLow : ℚ) := div_mul_cancel₀ _ (by linarith)
    unfold segFormula
    rw [hcan] at hmul
    linarith

lemma segFormula_mono (b : Breakpoint) (hb : b ∈ breakpoints) {c1 c2 : ℚ} (h : c1 ≤ c2) :
    segFormula b c1 ≤ segFormula b c2 := by
  obtain ⟨hc, hi⟩ := mem_bp_props b hb
  have hs : 0 ≤ ((b.iHigh - b.iLow : ℚ) / (b.cHigh - b.cLow)) :=
    div_nonneg (by linarith) (by linarith)
  unfold segFormula
  have := mul_le_mul_of_nonneg_left (by linarith : c1 - b.cLow ≤ c2 - b.cLow) hs
  linarith

set_option maxHeartbeats 1000000 in
lemma pm25_eval_of_mem (b : Breakpoint) (hb : b ∈ breakpoints) (c : ℚ)
    (h1 : b.cLow ≤ c) (h2 : c ≤ b.cHigh) :
    pm25_to_aqi_core c = pyRound (segFormula b c) := by
  have hfind : breakpoints.find? (fun b => decide (b.cLow ≤ c ∧ c ≤ b.cHigh)) = some b := by
    fin_cases hb <;> simp_all [breakpoints] <;> (repeat' apply And.intro) <;> (right; linarith)
  rw [pm25_to_aqi_core, hfind]

lemma pm25_core_bounds (b : Breakpoint) (hb : b ∈ breakpoints) (c : ℚ)
    (h1 : b.cLow ≤ c) (h2 : c ≤ b.cHigh) :
    b.iLow ≤ pm25_to_aqi_core c ∧ pm25_to_aqi_core c ≤ b.iHigh := by
  obtain ⟨hlo, hhi⟩ := segFormula_bounds b hb c h1 h2
  rw [pm25_eval_of_mem b hb c h1 h2]
  constructor
  · have := pyRound_mono hlo
    rwa [pyRound_intCast] at this
  · have := pyRound_mono hhi
    rwa [pyRound_intCast] at this

lemma pm25_core_mono_seg (b : Breakpoint) (hb : b ∈ breakpoints) (c1 c2 : ℚ)
    (h1 : b.cLow ≤ c1) (h2 : c1 ≤ b.cHigh) (h3 : b.cLow ≤ c2) (h4 : c2 ≤ b.cHigh)
    (h : c1 ≤ c2) : pm25_to_aqi_core c1 ≤ pm25_to_aqi_core c2 := by
  rw [pm25_eval_of_mem b hb c1 h1 h2, pm25_eval_of_mem b hb c2 h3 h4]
  exact pyRound_mono (segFormula_mono b hb h)

/-- C3: for every numeric AQI value, `get_aqi_category` assigns exactly one
category with inclusive upper boundaries: at most 50 is Good, then Moderate
up to 100, Unhealthy for Sensitive Groups up to 150, Unhealthy up to 200,
Very Unhealthy up to 300, and Hazardous above 300; the boundary values
belong to the lower category, and the six categories cover the whole line
with no overlap and no gap. -/
theorem aqi_category_partition (q : ℚ) :
    ((get_aqi_category (.num q)).category = .good ↔ q ≤ 50) ∧
    ((get_aqi_category (.num q)).category = .moderate ↔ 50 < q ∧ q ≤ 100) ∧
    ((get_aqi_category (.num q)).category = .unhealthySensitive ↔ 100 < q ∧ q ≤ 150) ∧
    ((get_aqi_category (.num q)).category = .unhealthy ↔ 150 < q ∧ q ≤ 200) ∧
    ((get_aqi_category (.num q)).category = .veryUnhealthy ↔ 200 < q ∧ q ≤ 300) ∧
    ((get_aqi_category (.num q)).category = .hazardous ↔ 300 < q) := by
  simp only [get_aqi_category, AqiInput.le, decide_eq_true_eq]
  split_ifs with h1 h2 h3 h4 h5 <;>
    refine ⟨?_, ?_, ?_, ?_, ?_, ?_⟩ <;> simp <;>
    first
    | linarith
    | (rintro ⟨hx, hy⟩; linarith)
    | (intro hx; linarith)
    | (constructor <;> linarith)

/-- C4 counterexample: a NaN input to `get_aqi_category` is not classified
`Unknown` with advice "No data" — every comparison against NaN is false, so
the chain falls through to the `Hazardous` branch. -/
theorem aqi_category_nan_counterexample :
    (get_aqi_category .nan).category = .hazardous ∧
    ((get_aqi_category .nan).category == AqiCategory.unknown) = false ∧
    ((get_aqi_category .nan).advice == "No data") = false :=
  ⟨rfl, rfl, by decide⟩

/-- C4 amended: `get_aqi_category` never returns the `Unknown` category for
any input; a NaN input raises no error but is classified `Hazardous`,
because all of its boundary comparisons evaluate to false. -/
theorem aqi_category_nan_hazardous_never_unknown :
    (∀ x, ((get_aqi_category x).category == AqiCategory.unknown) = false) ∧
    (get_aqi_category .nan).category = .hazardous := by
  constructor
  · intro x
    rcases x with q | _
    · simp only [get_aqi_category, AqiInput.le]
      split_ifs <;> rfl
    · rfl
  · rfl

/-- C5: inside a breakpoint segment `(Clow, Chigh, Ilow, Ihigh)` of the
table, `pm25_to_aqi` returns the linear interpolation
`(Ihigh-Ilow)/(Chigh-Clow) * (c-Clow) + Ilow` rounded to the nearest
integer by Python `round` (ties to even); in particular `pm25_to_aqi 12.0 =
50` and `pm25_to_aqi 12.1 = 51`. -/
theorem pm25_segment_interpolation (c : ℚ) (b : Breakpoint) (hb : b ∈ breakpoints)
    (h1 : b.cLow ≤ c) (h2 : c ≤ b.cHigh) :
    pm25_to_aqi (.num c) = .val (pyRound (segFormula b c)) ∧
    pm25_to_aqi (.num 12) = .val 50 ∧ pm25_to_aqi (.num 12.1) = .val 51 := by
  refine ⟨?_, ?_, ?_⟩
  · show PmResult.val (pm25_to_aqi_core c) = _
    rw [pm25_eval_of_mem b hb c h1 h2]
  · norm_num [pm25_to_aqi, pm25_to_aqi_core, breakpoints, List.find?, segFormula, pyRound]
  · norm_num [pm25_to_aqi, pm25_to_aqi_core, breakpoints, List.find?, segFormula, pyRound]

/-- Witness for C5: the segment formula theorem applied inside the first
segment, at concentration 6. -/
theorem pm25_segment_interpolation_witness :
    pm25_to_aqi (.num 6) = .val (pyRound (segFormula ⟨0, 12, 0, 50⟩ 6)) :=
  (pm25_segment_interpolation 6 ⟨0, 12, 0, 50⟩ (by simp [breakpoints]) (by norm_num)
    (by norm_num)).1

/-- C2 counterexample: `pm25_to_aqi` is not monotone over all of
`[0, 500.4]`. The concentrations 12.05 and 12.1 are both valid and ordered,
but 12.05 falls in the gap between the first two breakpoint segments, so the
loop matches no segment and returns the out-of-range value 500, which is
strictly greater than the value 51 returned at 12.1. -/
theorem pm25_monotone_gap_counterexample :
    (12.05 : ℚ) ≤ 12.1 ∧ (0 : ℚ) ≤ 12.05 ∧ (12.1 : ℚ) ≤ 500.4 ∧
    pm25_to_aqi_core 12.05 = 500 ∧ pm25_to_aqi_core 12.1 = 51 ∧ (51 : ℤ) < 500 := by
  refine ⟨by norm_num, by norm_num, by norm_num, ?_, ?_, by norm_num⟩ <;>
    norm_num [pm25_to_aqi_core, breakpoints, List.find?, segFormula, pyRound]

set_option maxHeartbeats 1000000 in
/-- C2 amended: `pm25_to_aqi` is monotonically non-decreasing on the inputs
that lie inside breakpoint segments; the gap values between consecutive
segments (such as 12.05) instead hit the catch-all `return 500` and break
monotonicity over the whole of `[0, 500.4]`. -/
theorem pm25_monotone_on_breakpoint_table (c1 c2 : ℚ) (h1 : inBreakpointTable c1)
    (h2 : inBreakpointTable c2) (h : c1 ≤ c2) :
    pm25_to_aqi_core c1 ≤ pm25_to_aqi_core c2 := by
  obtain ⟨b1, hb1, hl1, hr1⟩ := h1
  obtain ⟨b2, hb2, hl2, hr2⟩ := h2
  have hm1 := pm25_core_bounds b1 hb1 c1 hl1 hr1
  have hm2 := pm25_core_bounds b2 hb2 c2 hl2 hr2
  have hb1' : b1 = ⟨0, 12, 0, 50⟩ ∨ b1 = ⟨12.1, 35.4, 51, 100⟩ ∨ b1 = ⟨35.5, 55.4, 101, 150⟩ ∨
      b1 = ⟨55.5, 150.4, 151, 200⟩ ∨ b1 = ⟨150.5, 250.4, 201, 300⟩ ∨
      b1 = ⟨250.5, 350.4, 301, 400⟩ ∨ b1 = ⟨350.5, 500.4, 401, 500⟩ := by
    simpa [breakpoints] using hb1
  have hb2' : b2 = ⟨0, 12, 0, 50⟩ ∨ b2 = ⟨12.1, 35.4, 51, 100⟩ ∨ b2 = ⟨35.5, 55.4, 101, 150⟩ ∨
      b2 = ⟨55.5, 150.4, 151, 200⟩ ∨ b2 = ⟨150.5, 250.4, 201, 300⟩ ∨
      b2 = ⟨250.5, 350.4, 301, 400⟩ ∨ b2 = ⟨350.5, 500.4, 401, 500⟩ := by
    simpa [breakpoints] using hb2
  rcases eq_or_ne b1 b2 with rfl | hne
  · exact pm25_core_mono_seg b1 hb1 c1 c2 hl1 hr1 hl2 hr2 h
  · rcases hb1' with rfl | rfl | rfl | rfl | rfl | rfl | rfl <;>
      rcases hb2' with rfl | rfl | rfl | rfl | rfl | rfl | rfl <;>
      dsimp only at hl1 hr1 hl2 hr2 hm1 hm2 <;>
      first
      | exact absurd rfl hne
      | linarith [hm1.2, hm2.1]

/-- Witness for the amended C2: monotonicity applied to the in-segment
concentrations 1 and 2. -/
theorem pm25_monotone_on_breakpoint_table_witness :
    inBreakpointTable 1 ∧ inBreakpointTable 2 ∧
    pm25_to_aqi_core 1 ≤ pm25_to_aqi_core 2 :=
  ⟨⟨⟨0, 12, 0, 50⟩, by simp [breakpoints], by norm_num, by norm_num⟩,
   ⟨⟨0, 12, 0, 50⟩, by simp [breakpoints], by norm_num, by norm_num⟩,
   pm25_monotone_on_breakpoint_table 1 2
     ⟨⟨0, 12, 0, 50⟩, by simp [breakpoints], by norm_num, by norm_num⟩
     ⟨⟨0, 12, 0, 50⟩, by simp [breakpoints], by norm_num, by norm_num⟩ (by norm_num)⟩

/-- C6 counterexample: a negative concentration is not rejected with an
error; the loop matches no segment and falls through to the saturating
`return 500`, so -1 is mapped to the valid AQI value 500, which the claim
reserves for over-range input. -/
theorem pm25_negative_counterexample :
    pm25_to_aqi (.num (-1)) = .val 500 ∧ (-1 : ℚ) < 0 ∧ (0 : ℤ) ≤ 500 ∧ (500 : ℤ) ≤ 500 := by
  refine ⟨?_, by norm_num, by norm_num, by norm_num⟩
  norm_num [pm25_to_aqi, pm25_to_aqi_core, breakpoints, List.find?]

/-- C6 amended: every out-of-table numeric input — negative or above 500.4
alike — returns the saturating value 500 rather than an error, and
non-numeric input returns the float NaN rather than raising; in particular
negative input is mapped to a valid AQI value. -/
theorem pm25_out_of_table_saturates (c : ℚ) (h : c < 0 ∨ 500.4 < c) :
    pm25_to_aqi (.num c) = .val 500 ∧ pm25_to_aqi .nonNumeric = .nan := by
  constructor
  · have hfind : breakpoints.find? (fun b => decide (b.cLow ≤ c ∧ c ≤ b.cHigh)) = none := by
      rw [List.find?_eq_none]
      intro b hb
      fin_cases hb <;> simp <;> rcases h with h | h <;> intro <;> linarith
    show PmResult.val (pm25_to_aqi_core c) = _
    rw [pm25_to_aqi_core, hfind]
  · rfl

/-- Witness for the amended C6: the out-of-table behaviour at -1. -/
theorem pm25_out_of_table_saturates_witness :
    ((-1 : ℚ) < 0 ∨ (500.4 : ℚ) < -1) ∧
    pm25_to_aqi (.num (-1)) = .val 500 ∧ pm25_to_aqi .nonNumeric = .nan :=
  ⟨Or.inl (by norm_num), pm25_out_of_table_saturates (-1) (Or.inl (by norm_num))⟩

lemma atan2_nonneg {y : ℝ} (x : ℝ) (hy : 0 ≤ y) : 0 ≤ atan2 y x := by
  unfold atan2
  split_ifs with h1 h2 h3 h4 <;>
    first
    | (have h := Real.arctan_strictMono.monotone (div_nonneg hy (le_of_lt h1))
       rwa [Real.arctan_zero] at h)
    | linarith [Real.pi_pos]
    | linarith [Real.neg_pi_div_two_lt_arctan (y / x), Real.pi_pos]

lemma sin_sq_swap (a b : ℝ) : Real.sin ((a - b) / 2) ^ 2 = Real.sin ((b - a) / 2) ^ 2 := by
  rw [show (a - b) / 2 = -((b - a) / 2) by ring, Real.sin_neg, neg_sq]

lemma calculate_distance_symm (lat1 lon1 lat2 lon2 : ℝ) :
    calculate_distance lat1 lon1 lat2 lon2 = calculate_distance lat2 lon2 lat1 lon1 := by
  unfold calculate_distance
  rw [sin_sq_swap (radiansOf lat2) (radiansOf lat1),
    sin_sq_swap (radiansOf lon2) (radiansOf lon1),
    mul_comm (Real.cos (radiansOf lat1)) (Real.cos (radiansOf lat2))]

lemma calculate_distance_nonneg (lat1 lon1 lat2 lon2 : ℝ) :
    0 ≤ calculate_distance lat1 lon1 lat2 lon2 := by
  unfold calculate_distance
  have h := atan2_nonneg
    (Real.sqrt (1 - (Real.sin ((radiansOf lat2 - radiansOf lat1) / 2) ^ 2 +
      Real.cos (radiansOf lat1) * Real.cos (radiansOf lat2) *
        Real.sin ((radiansOf lon2 - radiansOf lon1) / 2) ^ 2)))
    (Real.sqrt_nonneg (Real.sin ((radiansOf lat2 - radiansOf lat1) / 2) ^ 2 +
      Real.cos (radiansOf lat1) * Real.cos (radiansOf lat2) *
        Real.sin ((radiansOf lon2 - radiansOf lon1) / 2) ^ 2))
  linarith

lemma calculate_distance_self (lat lon : ℝ) : calculate_distance lat lon lat lon = 0 := by
  unfold calculate_distance
  simp only [sub_self, zero_div, Real.sin_zero]
  norm_num [atan2, Real.sqrt_zero, Real.sqrt_one, Real.arctan_zero]

/-- C10: `calculate_distance` is symmetric in its two coordinate pairs, its
result is never negative, and the distance from a point to itself is 0. -/
theorem calculate_distance_symm_nonneg_zero (lat1 lon1 lat2 lon2 : ℝ) :
    calculate_distance lat1 lon1 lat2 lon2 = calculate_distance lat2 lon2 lat1 lon1 ∧
    0 ≤ calculate_distance lat1 lon1 lat2 lon2 ∧
    calculate_distance lat1 lon1 lat1 lon1 = 0 :=
  ⟨calculate_distance_symm lat1 lon1 lat2 lon2,
   calculate_distance_nonneg lat1 lon1 lat2 lon2,
   calculate_distance_self lat1 lon1⟩

/-- C7 amended: `get_nearby_stations` returns exactly the stations whose
haversine distance from the query point is at most `radius_km` (as a
permutation of the filtered distance-annotated rows), sorted ascending by
that distance; it has no `max_stations` parameter, so no cap is applied. -/
theorem get_nearby_stations_within_radius_sorted (df : List Station) (ulat ulon r : ℝ) :
    List.Perm (get_nearby_stations df ulat ulon r)
      ((df.map fun s => (s, calculate_distance ulat ulon s.lat s.lon)).filter
        fun p => decide (p.2 ≤ r)) ∧
    List.Pairwise (fun p q : Station × ℝ => p.2 ≤ q.2) (get_nearby_stations df ulat ulon r) := by
  constructor
  · exact List.mergeSort_perm _ _
  · have h := @List.sorted_mergeSort (Station × ℝ) (fun p q => decide (p.2 ≤ q.2))
      (fun a b c hab hbc => by
        simp only [decide_eq_true_eq] at hab hbc ⊢
        exact le_trans hab hbc)
      (fun a b => by
        simp only [Bool.or_eq_true, decide_eq_true_eq]
        exact le_total a.2 b.2)
      ((df.map fun s => (s, calculate_distance ulat ulon s.lat s.lon)).filter
        fun p => decide (p.2 ≤ r))
    exact h.imp fun hab => of_decide_eq_true hab

/-- C7 counterexample: with four stations placed at the query point itself
and radius 10, `get_nearby_stations` returns all four rows; the claimed cap
of `max_stations` stations (3 in the scenario of the specification) does not
exist in the code. -/
theorem get_nearby_stations_no_cap_counterexample :
    (get_nearby_stations [⟨"S1", 10, 0, 0⟩, ⟨"S2", 20, 0, 0⟩, ⟨"S3", 30, 0, 0⟩,
      ⟨"S4", 40, 0, 0⟩] 0 0 10).length = 4 ∧ (3 : ℕ) < 4 := by
  refine ⟨?_, by norm_num⟩
  unfold get_nearby_stations
  rw [List.length_mergeSort, List.filter_eq_self.mpr]
  · simp
  · intro p hp
    fin_cases hp <;>
    · show decide (calculate_distance 0 0 0 0 ≤ 10) = true
      rw [calculate_distance_self]
      exact decide_eq_true (by norm_num)

/-- C1 counterexample: `create_alert_message` averages the selected
stations with a plain (unweighted) mean. For the two stations of scenario A
— AQI 40 at distance 1 km and AQI 60 at distance 4 km — the code reports 50,
not the inverse-distance-weighted value
`(40/1.01 + 60/4.01) / (1/1.01 + 1/4.01)` (which is strictly below 50), and
the reported category is Good, not the claimed Moderate. -/
theorem alert_composite_mean_counterexample :
    (create_alert_message [(⟨"A", 40, 0, 0⟩, 1), (⟨"B", 60, 0, 0⟩, 4)] "Delhi").map
      AlertData.avg_aqi = some 50 ∧
    (create_alert_message [(⟨"A", 40, 0, 0⟩, 1), (⟨"B", 60, 0, 0⟩, 4)] "Delhi").map
      AlertData.category = some .good ∧
    ((40 / 1.01 + 60 / 4.01) / (1 / 1.01 + 1 / 4.01) : ℚ) < 50 ∧
    (AqiCategory.good == AqiCategory.moderate) = false := by
  refine ⟨?_, ?_, by norm_num, rfl⟩ <;>
    norm_num [create_alert_message, get_aqi_category, AqiInput.le]

/-- C1 amended: the composite AQI reported for a non-empty selection is the
plain arithmetic mean of the selected stations, classified by
`get_aqi_category`, with the first (nearest) row reported as the worst
station; for scenario A (AQI 40 at 1 km, AQI 60 at 4 km) the composite is 50
and the category Good. -/
theorem alert_composite_is_plain_mean (w : Station × ℝ) (rest : List (Station × ℝ))
    (loc : String) :
    (create_alert_message (w :: rest) loc).map AlertData.avg_aqi =
      some (((w :: rest).map fun p => p.1.aqi).sum / ((w :: rest).length : ℚ)) ∧
    (create_alert_message (w :: rest) loc).map AlertData.category =
      some (get_aqi_category
        (.num (((w :: rest).map fun p => p.1.aqi).sum / ((w :: rest).length : ℚ)))).category ∧
    (create_alert_message (w :: rest) loc).map AlertData.worst_name = some w.1.station_name ∧
    (create_alert_message (w :: rest) loc).map AlertData.worst_distance = some w.2 ∧
    (create_alert_message [(⟨"A", 40, 0, 0⟩, 1), (⟨"B", 60, 0, 0⟩, 4)] "Delhi").map
      AlertData.avg_aqi = some 50 := by
  refine ⟨rfl, rfl, rfl, rfl, ?_⟩
  norm_num [create_alert_message]

/-- C8: when every station is farther than the radius, the selection is
empty, no AQI value is computed (`create_alert_message` of the empty
selection is `none`, never an AQI of 0), and the alert tab stops at the
no-stations warning without composing or sending an alert. -/
theorem no_station_in_radius_no_alert (df : List Station) (ulat ulon r : ℝ)
    (loc phone : String) (fmt : Option AlertData → String)
    (provider : String → String → Bool × String)
    (hloc : loc ≠ "") (hphone : phone ≠ "") (hplus : pyStartsWith phone "+" = true)
    (hfar : ∀ s ∈ df, r < calculate_distance ulat ulon s.lat s.lon) :
    get_nearby_stations df ulat ulon r = [] ∧
    create_alert_message (get_nearby_stations df ulat ulon r) loc = none ∧
    render_alert_subscription_tab df loc phone ulat ulon r fmt provider =
      .noStationsWarning := by
  have hnil : get_nearby_stations df ulat ulon r = [] := by
    unfold get_nearby_stations
    have hfilter : ((df.map fun s => (s, calculate_distance ulat ulon s.lat s.lon)).filter
        fun p => decide (p.2 ≤ r)) = [] := by
      rw [List.filter_eq_nil_iff]
      intro p hp
      simp only [List.mem_map] at hp
      obtain ⟨s, hs, rfl⟩ := hp
      simp only [decide_eq_true_eq]
      exact not_le.mpr (hfar s hs)
    rw [hfilter, List.mergeSort_nil]
  refine ⟨hnil, by rw [hnil]; rfl, ?_⟩
  unfold render_alert_subscription_tab
  rw [if_neg (by simp [hloc, hphone]), if_neg (by simp [hplus]), hnil]

/-- Witness for C8: the empty station frame, a valid location name and a
valid recipient number reach the no-stations warning. -/
theorem no_station_in_radius_no_alert_witness :
    ("Home" : String) ≠ "" ∧ pyStartsWith "+911234567890" "+" = true ∧
    get_nearby_stations [] 0 0 10 = [] ∧
    render_alert_subscription_tab [] "Home" "+911234567890" 0 0 10 (fun _ => "")
      (fun _ _ => (true, "sent")) = .noStationsWarning := by
  have h := no_station_in_radius_no_alert [] 0 0 10 "Home" "+911234567890" (fun _ => "")
    (fun _ _ => (true, "sent")) (by decide) (by decide) (by decide)
    (by intro s hs; simp at hs)
  exact ⟨by decide, by decide, h.1, h.2.2⟩

/-- C9: a recipient number that does not start with "+" makes
`send_sms_alert` return a validation failure with `success = false` and the
recipient-format message, and the result does not depend on the provider —
no network call is attempted. -/
theorem send_sms_alert_invalid_phone_validation (phone message : String)
    (provider : String → String → Bool × String)
    (h : pyStartsWith phone "+" = false) :
    send_sms_alert phone message provider =
      (false, "⚠️ Recipient phone number must include country code starting with \x27+\x27") ∧
    (send_sms_alert phone message provider).1 = false ∧
    ∀ p2 : String → String → Bool × String,
      send_sms_alert phone message provider = send_sms_alert phone message p2 := by
  have hmain : ∀ pr : String → String → Bool × String,
      send_sms_alert phone message pr =
        (false, "⚠️ Recipient phone number must include country code starting with \x27+\x27") := by
    intro pr
    unfold send_sms_alert
    rw [if_neg (by decide), if_neg (by decide), if_neg (by decide), if_pos h]
  exact ⟨hmain provider, by rw [hmain provider], fun p2 => by rw [hmain provider, hmain p2]⟩

/-- Witness for C9: the validation failure at the concrete recipient
"9876543210", which lacks the leading "+". -/
theorem send_sms_alert_invalid_phone_validation_witness :
    pyStartsWith "9876543210" "+" = false ∧
    (send_sms_alert "9876543210" "hello" fun _ _ => (true, "sid")).1 = false :=
  ⟨by decide,
   (send_sms_alert_invalid_phone_validation "9876543210" "hello"
     (fun _ _ => (true, "sid")) (by decide)).2.1⟩

end AirQuality
